import Mathlib

/-!
Verification of the ItemMod polymorphism-and-rehydration subsystem of OpHog
(src/js/HammerHelper.js, second module: `window.game.ItemModType`,
`window.game.ItemMod` and `ItemMod.rehydrateMods`).

Modelling conventions:
* JS numbers carried by mod parameters are modelled as `ℚ` (the code performs
  no arithmetic on them, it only stores and passes them).
* `console.log` diagnostics are made explicit: a function that may log returns
  its result together with the `List String` of lines it emitted.
* JS objects are immutable records here; a hook that in JS could mutate its
  receiver or its unit arguments is modelled as a state transformer returning
  the (possibly updated) receiver/attacker/target.  The default hook bodies in
  the source are empty, so they return every piece of state unchanged.
-/

/-- `window.game.ItemModType.LIFE_LEECH` (HammerHelper.js line 77). -/
def ItemModType.LIFE_LEECH : String := "life leech"

/-- `window.game.ItemModType.THORNS` (HammerHelper.js line 78). -/
def ItemModType.THORNS : String := "thorns"

/-- `window.game.ItemModType.REDUCE_DAMAGE` (HammerHelper.js line 79). -/
def ItemModType.REDUCE_DAMAGE : String := "reduce damage"

/-- `window.game.ItemModType.MULTIPLE_PROJECTILES` (HammerHelper.js line 80). -/
def ItemModType.MULTIPLE_PROJECTILES : String := "multiple projectiles"

/-- Modelled from the spec: the concrete Effect variant classes
(`game.LifeLeech`, `game.Thorns`, `game.ReduceDamage`,
`game.MultipleProjectiles`) are not in the available source — only their
constructor calls in `rehydrateMods` and the parameter table of spec section 3
are.  Each constructor stores exactly the declared parameters of its variant. -/
inductive ItemMod where
  | LifeLeech (chanceToLeech leechPercentage : ℚ)
  | Thorns (thornsDamage : ℚ)
  | ReduceDamage (reduceDamageAmount : ℚ)
  | MultipleProjectiles (numberOfProjectiles : ℚ)
deriving DecidableEq

/-- The `type` field set once by the base-class constructor
(`window.game.ItemMod`, HammerHelper.js lines 87-89).  Modelled from the spec
for the concrete variants: each passes its own registry tag to the base
constructor (spec section 3 invariant: the tag is consistent with the concrete
variant). -/
def ItemMod.type : ItemMod → String
  | .LifeLeech _ _ => ItemModType.LIFE_LEECH
  | .Thorns _ => ItemModType.THORNS
  | .ReduceDamage _ => ItemModType.REDUCE_DAMAGE
  | .MultipleProjectiles _ => ItemModType.MULTIPLE_PROJECTILES

/-- A combat unit as the hooks see it: the only attribute the spec exposes is
its life total.  (The JS `Unit` class is outside the available source.) -/
structure BattleUnit where
  life : ℚ
deriving DecidableEq

/-- `ItemMod.prototype.beforeReceiveDamage` (HammerHelper.js line 100): the
base-class default returns `damageToBeDealt` unchanged. -/
def ItemMod.beforeReceiveDamage (self : ItemMod) (attacker target : BattleUnit)
    (damageToBeDealt : ℚ) : ℚ :=
  damageToBeDealt

/-- `ItemMod.prototype.onDamageDealt` (HammerHelper.js line 112): the default
body is empty, so no state (receiver, attacker or target) changes and no value
is returned; the state transformer is the identity. -/
def ItemMod.onDamageDealt (self : ItemMod) (attacker target : BattleUnit)
    (damageDealt : ℚ) : ItemMod × BattleUnit × BattleUnit :=
  (self, attacker, target)

/-- `ItemMod.prototype.onDamageReceived` (HammerHelper.js line 120): same empty
default body as `onDamageDealt`. -/
def ItemMod.onDamageReceived (self : ItemMod) (attacker target : BattleUnit)
    (damageDealt : ℚ) : ItemMod × BattleUnit × BattleUnit :=
  (self, attacker, target)

/-- `ItemMod.prototype.onBattleTurn` (HammerHelper.js line 131): the default
returns `false` (the attack was not modified). -/
def ItemMod.onBattleTurn (self : ItemMod) (attacker : BattleUnit) : Bool :=
  false

/-- `ItemMod.prototype.copy` (HammerHelper.js lines 136-139): the base-class
default logs a diagnostic naming the receiver's type and returns the `null`
sentinel (modelled as `none`). -/
def ItemMod.copy (self : ItemMod) : Option ItemMod × List String :=
  (none, ["copy - unimplemented for: " ++ self.type])

/-- `ItemMod.prototype.getDescription` (HammerHelper.js lines 144-147): the
base-class default logs a diagnostic and returns a fallback string naming the
receiver's type. -/
def ItemMod.getDescription (self : ItemMod) : String × List String :=
  ("Unrecognized ItemMod type: " ++ self.type,
    ["getDescription - unimplemented for: " ++ self.type])

/-- A persisted mod record from localStorage: an untyped object with a `type`
field plus flat parameter fields (HammerHelper.js lines 160-174 read exactly
these fields; a field the record did not persist reads as a default value). -/
structure ModRecord where
  type : String
  chanceToLeech : ℚ := 0
  leechPercentage : ℚ := 0
  thornsDamage : ℚ := 0
  reduceDamageAmount : ℚ := 0
  numberOfProjectiles : ℚ := 0
deriving DecidableEq

/-- The body of one iteration of `ItemMod.rehydrateMods` (HammerHelper.js
lines 160-180): switch on `modObject.type`, constructing the matching concrete
mod, or — in the default arm — the `null` sentinel plus a `console.log`
diagnostic.  The result pairs the constructed mod with the log lines emitted. -/
def rehydrateModSwitch (modObject : ModRecord) : Option ItemMod × List String :=
  let itemModType := modObject.type
  if itemModType = ItemModType.LIFE_LEECH then
    (some (ItemMod.LifeLeech modObject.chanceToLeech modObject.leechPercentage), [])
  else if itemModType = ItemModType.THORNS then
    (some (ItemMod.Thorns modObject.thornsDamage), [])
  else if itemModType = ItemModType.REDUCE_DAMAGE then
    (some (ItemMod.ReduceDamage modObject.reduceDamageAmount), [])
  else if itemModType = ItemModType.MULTIPLE_PROJECTILES then
    (some (ItemMod.MultipleProjectiles modObject.numberOfProjectiles), [])
  else
    (none, ["Unrecognized ItemModType: " ++ itemModType])

/-- `window.game.ItemMod.rehydrateMods` (HammerHelper.js lines 157-188) with
the `console.log` diagnostics made explicit: the loop pushes each non-null
`finalMod` onto `finalMods` in input order and accumulates the log lines. -/
def rehydrateModsLog : List ModRecord → List ItemMod × List String
  | [] => ([], [])
  | modObject :: rest =>
    ((rehydrateModSwitch modObject).1.toList ++ (rehydrateModsLog rest).1,
      (rehydrateModSwitch modObject).2 ++ (rehydrateModsLog rest).2)

/-- `window.game.ItemMod.rehydrateMods` (HammerHelper.js lines 157-188): the
returned `finalMods` array. -/
def rehydrateMods (mods : List ModRecord) : List ItemMod :=
  (rehydrateModsLog mods).1

/-- Whether a `type` string hits one of the four switch cases of
`rehydrateMods`, i.e. is a tag of the known registry. -/
def isKnownType (t : String) : Bool :=
  t == ItemModType.LIFE_LEECH || t == ItemModType.THORNS ||
    t == ItemModType.REDUCE_DAMAGE || t == ItemModType.MULTIPLE_PROJECTILES

/-- Modelled from the spec: the Combat Hook Dispatcher is a consumer contract
(spec section 4.3) whose code is not in the available source.  Turn-start phase:
offer `onBattleTurn` to the attacker's attached effects in attachment order,
short-circuiting at the first attempt that reports `true`.  The input is each
effect's would-be `onBattleTurn` result; the output is the list of results of
the attempts actually invoked, in invocation order. -/
def dispatchBattleTurn : List Bool → List Bool
  | [] => []
  | a :: rest => if a then [a] else a :: dispatchBattleTurn rest

/-- Modelled from the spec: the pre-damage phase of the Combat Hook Dispatcher
(spec section 4.3) folds `beforeReceiveDamage` over the target's attached
effects in attachment order, threading the damage value. -/
def foldBeforeReceiveDamage (transforms : List (ℚ → ℚ)) (damage : ℚ) : ℚ :=
  transforms.foldl (fun d f => f d) damage

/-- Modelled from the spec: serialization of a live mod to a persisted record
is not in the available source; spec section 3's table is authoritative for the
persisted field names of each variant, plus the `type` tag. -/
def serializeMod : ItemMod → ModRecord
  | .LifeLeech c l =>
    { type := ItemModType.LIFE_LEECH, chanceToLeech := c, leechPercentage := l }
  | .Thorns t => { type := ItemModType.THORNS, thornsDamage := t }
  | .ReduceDamage r =>
    { type := ItemModType.REDUCE_DAMAGE, reduceDamageAmount := r }
  | .MultipleProjectiles n =>
    { type := ItemModType.MULTIPLE_PROJECTILES, numberOfProjectiles := n }

/-! ### Helper lemmas -/

/-- On a record with a known type tag, the switch constructs a mod and logs
nothing. -/
theorem rehydrateModSwitch_known (m : ModRecord) (h : isKnownType m.type = true) :
    ∃ e, rehydrateModSwitch m = (some e, []) := by
  simp only [isKnownType, Bool.or_eq_true, beq_iff_eq] at h
  rcases h with ((h | h) | h) | h
  · exact ⟨ItemMod.LifeLeech m.chanceToLeech m.leechPercentage,
      by simp [rehydrateModSwitch, h]⟩
  · exact ⟨ItemMod.Thorns m.thornsDamage,
      by simp [rehydrateModSwitch, h, ItemModType.LIFE_LEECH, ItemModType.THORNS]⟩
  · exact ⟨ItemMod.ReduceDamage m.reduceDamageAmount,
      by simp [rehydrateModSwitch, h, ItemModType.LIFE_LEECH, ItemModType.THORNS,
        ItemModType.REDUCE_DAMAGE]⟩
  · exact ⟨ItemMod.MultipleProjectiles m.numberOfProjectiles,
      by simp [rehydrateModSwitch, h, ItemModType.LIFE_LEECH, ItemModType.THORNS,
        ItemModType.REDUCE_DAMAGE, ItemModType.MULTIPLE_PROJECTILES]⟩

/-- On a record with an unknown type tag, the switch produces the null sentinel
and exactly one diagnostic line. -/
theorem rehydrateModSwitch_unknown (m : ModRecord)
    (h : isKnownType m.type = false) :
    rehydrateModSwitch m = (none, ["Unrecognized ItemModType: " ++ m.type]) := by
  simp only [isKnownType, Bool.or_eq_false_iff, beq_eq_false_iff_ne, ne_eq] at h
  obtain ⟨⟨⟨h1, h2⟩, h3⟩, h4⟩ := h
  simp [rehydrateModSwitch, h1, h2, h3, h4]

/-- Rehydration distributes over append: output order matches input order. -/
theorem rehydrateMods_append (xs ys : List ModRecord) :
    rehydrateMods (xs ++ ys) = rehydrateMods xs ++ rehydrateMods ys := by
  induction xs with
  | nil => simp [rehydrateMods, rehydrateModsLog]
  | cons m rest ih =>
    simp [rehydrateMods, rehydrateModsLog] at ih ⊢
    simp [ih]

/-! ### Claims -/

/-- C1: `rehydrateMods` returns one mod per known-type record and omits every
unknown-type record with no placeholder while the batch continues: its result
is unchanged when the unknown-type records are removed from the input
(preserving the relative order of the known-type results), the output length
plus the number of unknown-type records equals the input length (so with
exactly one unknown-type record the output is one element shorter), and
exactly one diagnostic line is logged per unknown-type record. -/
theorem C1_unknown_type_records_dropped (mods : List ModRecord) :
    rehydrateMods mods = rehydrateMods (mods.filter (fun m => isKnownType m.type))
    ∧ (rehydrateMods mods).length + mods.countP (fun m => ! isKnownType m.type)
      = mods.length
    ∧ (rehydrateModsLog mods).2.length
      = mods.countP (fun m => ! isKnownType m.type) := by
  induction mods with
  | nil => simp [rehydrateMods, rehydrateModsLog]
  | cons m rest ih =>
    obtain ⟨ih1, ih2, ih3⟩ := ih
    by_cases h : isKnownType m.type
    · obtain ⟨e, he⟩ := rehydrateModSwitch_known m h
      refine ⟨?_, ?_, ?_⟩
      · simpa [rehydrateMods, rehydrateModsLog, he, List.filter_cons, h]
          using ih1
      · simp [rehydrateMods, rehydrateModsLog, he, List.countP_cons, h] at ih2 ⊢
        omega
      · simpa [rehydrateModsLog, he, List.countP_cons, h] using ih3
    · have he := rehydrateModSwitch_unknown m (Bool.eq_false_iff.mpr h)
      refine ⟨?_, ?_, ?_⟩
      · simpa [rehydrateMods, rehydrateModsLog, he, List.filter_cons, h]
          using ih1
      · simp [rehydrateMods, rehydrateModsLog, he, List.countP_cons, h] at ih2 ⊢
        omega
      · simp [rehydrateModsLog, he, List.countP_cons, h] at ih3 ⊢
        omega

/-- C2: each known tag dispatches to its matching constructor, passing through
exactly the variant's declared parameters from the record's fields; output
ordering matches input ordering (rehydration distributes over append); and the
concrete three-record scenario (thorns 5, life leech 3/10 and 1/2, unknown)
rehydrates to exactly a Thorns and a LifeLeech in that order, the unknown
record dropped. -/
theorem C2_dispatch_to_matching_constructor (r : ModRecord)
    (xs ys : List ModRecord) :
    rehydrateModSwitch { r with type := ItemModType.LIFE_LEECH }
      = (some (ItemMod.LifeLeech r.chanceToLeech r.leechPercentage), [])
    ∧ rehydrateModSwitch { r with type := ItemModType.THORNS }
      = (some (ItemMod.Thorns r.thornsDamage), [])
    ∧ rehydrateModSwitch { r with type := ItemModType.REDUCE_DAMAGE }
      = (some (ItemMod.ReduceDamage r.reduceDamageAmount), [])
    ∧ rehydrateModSwitch { r with type := ItemModType.MULTIPLE_PROJECTILES }
      = (some (ItemMod.MultipleProjectiles r.numberOfProjectiles), [])
    ∧ rehydrateMods (xs ++ ys) = rehydrateMods xs ++ rehydrateMods ys
    ∧ rehydrateMods
        [{ type := "thorns", thornsDamage := 5 },
         { type := "life leech", chanceToLeech := 3/10, leechPercentage := 1/2 },
         { type := "unknown" }]
      = [ItemMod.Thorns 5, ItemMod.LifeLeech (3/10) (1/2)] := by
  refine ⟨?_, ?_, ?_, ?_, rehydrateMods_append xs ys, ?_⟩
  · simp [rehydrateModSwitch]
  · simp [rehydrateModSwitch, ItemModType.LIFE_LEECH, ItemModType.THORNS]
  · simp [rehydrateModSwitch, ItemModType.LIFE_LEECH, ItemModType.THORNS,
      ItemModType.REDUCE_DAMAGE]
  · simp [rehydrateModSwitch, ItemModType.LIFE_LEECH, ItemModType.THORNS,
      ItemModType.REDUCE_DAMAGE, ItemModType.MULTIPLE_PROJECTILES]
  · simp [rehydrateMods, rehydrateModsLog, rehydrateModSwitch,
      ItemModType.LIFE_LEECH, ItemModType.THORNS, ItemModType.REDUCE_DAMAGE,
      ItemModType.MULTIPLE_PROJECTILES]

/-- C3: round-trip fidelity: for every variant and all parameter values,
serializing a live mod and rehydrating that single record yields exactly the
one-element sequence containing a mod structurally equal to the original. -/
theorem C3_serialize_rehydrate_roundtrip (e : ItemMod) :
    rehydrateMods [serializeMod e] = [e] := by
  cases e <;> rfl

/-- C4: the dispatcher invokes the attempts in attachment order and stops at
the first one that reports true: when every attempt before the first true one
reports false, the invoked attempts are exactly that false prefix plus the
first true attempt, and every effect later in attachment order is never
invoked; moreover on any input at most one invoked attempt reports true.  In
particular with A, B, C all reporting true only A is invoked. -/
theorem C4_at_most_one_attack_modification (xs ys : List Bool)
    (hxs : ∀ x ∈ xs, x = false) :
    dispatchBattleTurn (xs ++ true :: ys) = xs ++ [true]
    ∧ ∀ attempts : List Bool,
        (dispatchBattleTurn attempts).countP (fun b => b) ≤ 1 := by
  constructor
  · induction xs with
    | nil => simp [dispatchBattleTurn]
    | cons a rest ih =>
      have ha : a = false := hxs a (by simp)
      subst ha
      have ih2 := ih (fun x hx => hxs x (by simp [hx]))
      simp [dispatchBattleTurn, ih2]
  · intro attempts
    induction attempts with
    | nil => simp [dispatchBattleTurn]
    | cons a rest ih =>
      cases a
      · simpa [dispatchBattleTurn, List.countP_cons] using ih
      · simp [dispatchBattleTurn, List.countP_cons]

/-- C4 witness: the concrete scenario of three effects A, B, C attached in
that order, each of which would report true: only A is invoked. -/
theorem C4_at_most_one_attack_modification_witness :
    (∀ x ∈ ([] : List Bool), x = false)
    ∧ (dispatchBattleTurn ([] ++ true :: [true, true]) = [] ++ [true]
        ∧ ∀ attempts : List Bool,
            (dispatchBattleTurn attempts).countP (fun b => b) ≤ 1) :=
  ⟨by decide, C4_at_most_one_attack_modification [] [true, true] (by decide)⟩

/-- C5: calling the base-class default copy on any mod returns the null
sentinel (an absent value, never an exception, since the function is total)
and emits exactly one diagnostic line naming the receiver's type. -/
theorem C5_copy_default_returns_absent (e : ItemMod) :
    (ItemMod.copy e).1 = none
    ∧ (ItemMod.copy e).2 = ["copy - unimplemented for: " ++ e.type] :=
  ⟨rfl, rfl⟩

/-- C6: calling the base-class default getDescription on any mod returns a
fallback string naming the receiver's type tag (never an exception, since the
function is total) and emits one diagnostic line. -/
theorem C6_getDescription_default_fallback (e : ItemMod) :
    (ItemMod.getDescription e).1 = "Unrecognized ItemMod type: " ++ e.type
    ∧ (ItemMod.getDescription e).2
      = ["getDescription - unimplemented for: " ++ e.type] :=
  ⟨rfl, rfl⟩

/-- C7: every mod's type tag is drawn from the closed registry whose four tags
have the string values of HammerHelper.js lines 77-80, and no operation changes
an existing mod's tag: the state-transforming default hooks return the receiver
with its tag intact, copy returns no mod at all, and every mod rehydration
produces carries a known tag consistent with its variant. -/
theorem C7_type_tag_set_once_and_stable (e : ItemMod) (a t : BattleUnit)
    (d : ℚ) (mods : List ModRecord) :
    (ItemModType.LIFE_LEECH = "life leech" ∧ ItemModType.THORNS = "thorns"
      ∧ ItemModType.REDUCE_DAMAGE = "reduce damage"
      ∧ ItemModType.MULTIPLE_PROJECTILES = "multiple projectiles")
    ∧ (e.type = ItemModType.LIFE_LEECH ∨ e.type = ItemModType.THORNS
        ∨ e.type = ItemModType.REDUCE_DAMAGE
        ∨ e.type = ItemModType.MULTIPLE_PROJECTILES)
    ∧ (ItemMod.onDamageDealt e a t d).1.type = e.type
    ∧ (ItemMod.onDamageReceived e a t d).1.type = e.type
    ∧ (ItemMod.copy e).1 = none
    ∧ (rehydrateMods mods).all (fun m => isKnownType m.type) = true := by
  refine ⟨⟨rfl, rfl, rfl, rfl⟩, ?_, rfl, rfl, rfl, ?_⟩
  · cases e <;> simp [ItemMod.type]
  · induction mods with
    | nil => simp [rehydrateMods, rehydrateModsLog]
    | cons m rest ih =>
      by_cases h : isKnownType m.type
      · obtain ⟨e2, he⟩ := rehydrateModSwitch_known m h
        have hk : isKnownType e2.type = true := by
          cases e2 <;> simp [ItemMod.type, isKnownType]
        simpa [rehydrateMods, rehydrateModsLog, he, hk] using ih
      · have he := rehydrateModSwitch_unknown m (Bool.eq_false_iff.mpr h)
        simpa [rehydrateMods, rehydrateModsLog, he] using ih

/-- C8: no operation of the core signals failure by an exception: every default
hook, copy, getDescription, and rehydration is a total function that completes
with a value on every input, failure being visible only as a sentinel result
(none for copy, a fallback string for getDescription, an omitted record for an
unknown tag) plus diagnostic log lines — every input record is accounted for
either by a rehydrated mod or by a diagnostic line. -/
theorem C8_no_exception_crosses_boundary (e : ItemMod) (a t : BattleUnit)
    (d : ℚ) (mods : List ModRecord) :
    ItemMod.beforeReceiveDamage e a t d = d
    ∧ ItemMod.onDamageDealt e a t d = (e, a, t)
    ∧ ItemMod.onDamageReceived e a t d = (e, a, t)
    ∧ ItemMod.onBattleTurn e a = false
    ∧ (ItemMod.copy e).1 = none
    ∧ (ItemMod.copy e).2.length = 1
    ∧ (ItemMod.getDescription e).1 = "Unrecognized ItemMod type: " ++ e.type
    ∧ (ItemMod.getDescription e).2.length = 1
    ∧ (rehydrateMods mods).length + (rehydrateModsLog mods).2.length
      = mods.length := by
  refine ⟨rfl, rfl, rfl, rfl, rfl, rfl, rfl, rfl, ?_⟩
  induction mods with
  | nil => rfl
  | cons m rest ih =>
    by_cases h : isKnownType m.type
    · obtain ⟨e2, he⟩ := rehydrateModSwitch_known m h
      simp [rehydrateMods, rehydrateModsLog, he] at ih ⊢
      omega
    · have he := rehydrateModSwitch_unknown m (Bool.eq_false_iff.mpr h)
      simp [rehydrateMods, rehydrateModsLog, he] at ih ⊢
      omega

/-- C9: the base-class default beforeReceiveDamage is the identity on the
damage value for every attacker and target, so a mod that does not override it
is a no-op link in the pre-damage fold chain: inserting its transform anywhere
in the chain leaves the folded damage unchanged. -/
theorem C9_before_receive_damage_identity (e : ItemMod) (a t : BattleUnit)
    (d : ℚ) (fs gs : List (ℚ → ℚ)) :
    ItemMod.beforeReceiveDamage e a t d = d
    ∧ foldBeforeReceiveDamage
        (fs ++ (fun x => ItemMod.beforeReceiveDamage e a t x) :: gs) d
      = foldBeforeReceiveDamage (fs ++ gs) d := by
  refine ⟨rfl, ?_⟩
  simp [foldBeforeReceiveDamage, List.foldl_append, ItemMod.beforeReceiveDamage]

/-- C10: the default onDamageDealt and onDamageReceived change no state at all
(receiver, attacker and target come back unchanged; nothing is returned beyond
the untouched state) and the default onBattleTurn returns false, so a mod that
overrides no hooks never alters a combat exchange and never stops the
dispatcher's turn-start chain, leaving the one-per-turn attack-modification
slot for the effects after it. -/
theorem C10_default_hooks_inert (e : ItemMod) (a t : BattleUnit) (d : ℚ)
    (rest : List Bool) :
    ItemMod.onDamageDealt e a t d = (e, a, t)
    ∧ ItemMod.onDamageReceived e a t d = (e, a, t)
    ∧ ItemMod.onBattleTurn e a = false
    ∧ dispatchBattleTurn (ItemMod.onBattleTurn e a :: rest)
      = ItemMod.onBattleTurn e a :: dispatchBattleTurn rest := by
  refine ⟨rfl, rfl, rfl, ?_⟩
  simp [dispatchBattleTurn, ItemMod.onBattleTurn]
